import Mathlib

/-!
Shallow embedding of the proximity-scaled alarm sketch (HC-SR04 + LEDs + buzzer).

The repository holds two near-identical variants of one Arduino sketch:
the first (lines 1-261 of src/code.ino) has named helper functions and
placeholder `?` tunables; the second (lines 262-429) inlines the same logic
in `loop()` with concrete tunables.  We embed both.

Modelling conventions:
* C `int` is `ℤ`; C `unsigned long` values (timestamps, durations) are `ℕ`,
  with the 32-bit wrap-around of `now - phaseStartMs` made explicit through
  `elapsedMs`.
* The float expressions of the sketch are evaluated in exact rational
  arithmetic carried on integer numerators over a fixed common denominator;
  the C `(int)` / `(unsigned long)` casts (truncation toward zero) become
  `Int.tdiv` of the exact numerator by the denominator.  For the constants of
  this sketch the single-precision evaluation and the exact evaluation agree:
  every intermediate value is ≥ 1e-4 away from the integer boundary the cast
  truncates at, except the products `periodMs * ON_FRACTION` at exact
  multiples of 10, where both sides truncate to the same integer.
* `ON_FRACTION = 0.30f`; the exact value `3/10` is used, which yields the
  same truncated `onMs` for every period the sketch can produce (see above).
-/

/-- C cast `(int)q` of an exact rational `a / b` with `b > 0`: truncation
toward zero, i.e. `Int.tdiv`. -/
def cDivTrunc (a b : ℤ) : ℤ := a.tdiv b

/-- Modulus of a C `unsigned long` (32-bit on the target board). -/
def ULONG_MOD : ℕ := 4294967296

/-- Wrap-around difference `now - start` of two `unsigned long` millisecond
timestamps (both `< ULONG_MOD`). -/
def elapsedMs (now start : ℕ) : ℕ := (now + ULONG_MOD - start) % ULONG_MOD

/-- Tunables of the first variant (its source leaves the numeric values as
`?` placeholders, so they are parameters of the embedding).  `ON_FRACTION`
is `0.30f` in both variants and is kept fixed. -/
structure Tunables where
  FAR_DISTANCE_MM : ℤ
  NEAR_DISTANCE_MM : ℤ
  MAX_PERIOD_MS : ℤ
  MIN_PERIOD_MS : ℤ
  TONE_MIN_HZ : ℤ
  TONE_MAX_HZ : ℤ
deriving DecidableEq

/-- Tunables of the second variant (`FAR_MM = 1500`, `NEAR_MM = 150`,
`MAX_PERIOD_MS = 1600`, `MIN_PERIOD_MS = 110`, `TONE_MIN_HZ = 400`,
`TONE_MAX_HZ = 1600`). -/
def tunables2 : Tunables := ⟨1500, 150, 1600, 110, 400, 1600⟩

/-- struct PatternParams (variant 1): cycle length, tone frequency, ON and
OFF durations. -/
structure PatternParams where
  periodMs : ℤ
  toneHz : ℤ
  onMs : ℕ
  offMs : ℕ
deriving DecidableEq

/-- struct PatternState: start time of the current ON or OFF phase
(sentinel 0 = no cycle started) and the phase flag. -/
structure PatternState where
  phaseStartMs : ℕ
  phaseOn : Bool
deriving DecidableEq

/-- Latched actuator state: green (ready) LED, red (alarm) LED, and the
buzzer (`some f` = tone at frequency `f`, `none` = noTone). -/
structure Outputs where
  green : Bool
  red : Bool
  buzzer : Option ℤ
deriving DecidableEq

/-- tmp-array build of `medianOf3_allowInvalid` lines 162-166: collect the
entries that are currently valid (`>= 0`), in argument order. -/
def validEntries (a b c : ℤ) : List ℤ :=
  (if 0 ≤ a then [a] else []) ++ (if 0 ≤ b then [b] else []) ++
    (if 0 ≤ c then [c] else [])

/-- Three-element sorting network of lines 173-176: three conditional swaps,
returning `tmp[1]` (the middle slot). -/
def sort3Mid (x y z : ℤ) : ℤ :=
  let a1 := if x > y then y else x
  let b1 := if x > y then x else y
  let b2 := if b1 > z then z else b1
  let m := if a1 > b2 then a1 else b2
  m

/-- medianOf3_allowInvalid (variant 1, lines 161-177): median of 3 that
tolerates `-1` (invalid).  0 valid → `-1`; 1 valid → that entry; 2 valid →
their mean with C truncating division; 3 valid → middle of the sort
network. -/
def medianOf3_allowInvalid (a b c : ℤ) : ℤ :=
  match validEntries a b c with
  | [] => -1
  | [x] => x
  | [x, y] => (x + y).tdiv 2
  | x :: y :: z :: _ => sort3Mid x y z

/-- median3 (variant 2, lines 411-429): verbatim duplicate of
`medianOf3_allowInvalid`. -/
def median3 (a b c : ℤ) : ℤ :=
  match validEntries a b c with
  | [] => -1
  | [x] => x
  | [x, y] => (x + y).tdiv 2
  | x :: y :: z :: _ => sort3Mid x y z

/-- Clamped numerator of `norm` (lines 188-191): `norm` is
`(FAR - smoothed) / (FAR - NEAR)` clamped to `[0, 1]`; over the positive
denominator `D = FAR - NEAR` this is the numerator `FAR - smoothed` clamped
to `[0, D]`. -/
def clampNum (t : Tunables) (smoothedMm : ℤ) : ℤ :=
  let D := t.FAR_DISTANCE_MM - t.NEAR_DISTANCE_MM
  let n0 := t.FAR_DISTANCE_MM - smoothedMm
  if n0 < 0 then 0 else if D < n0 then D else n0

/-- periodMs of line 196: `(int)(MAX_PERIOD - ease * (MAX_PERIOD -
MIN_PERIOD) + 0.5f)` with `ease = norm * norm * norm = n³ / D³`, evaluated
exactly over the common denominator `2 D³` and truncated by the C cast. -/
def periodOf (t : Tunables) (smoothedMm : ℤ) : ℤ :=
  let D := t.FAR_DISTANCE_MM - t.NEAR_DISTANCE_MM
  let n := clampNum t smoothedMm
  cDivTrunc
    (2 * t.MAX_PERIOD_MS * (D * D * D)
      - 2 * (t.MAX_PERIOD_MS - t.MIN_PERIOD_MS) * (n * n * n) + D * D * D)
    (2 * (D * D * D))

/-- toneHz of line 197: `(int)(TONE_MIN + ease * (TONE_MAX - TONE_MIN) +
0.5f)`, same exact evaluation. -/
def toneOf (t : Tunables) (smoothedMm : ℤ) : ℤ :=
  let D := t.FAR_DISTANCE_MM - t.NEAR_DISTANCE_MM
  let n := clampNum t smoothedMm
  cDivTrunc
    (2 * t.TONE_MIN_HZ * (D * D * D)
      + 2 * (t.TONE_MAX_HZ - t.TONE_MIN_HZ) * (n * n * n) + D * D * D)
    (2 * (D * D * D))

/-- onMs of line 201: `(unsigned long)(periodMs * ON_FRACTION)` with
`ON_FRACTION = 0.30f`, i.e. truncation of `3 * periodMs / 10`. -/
def onMsOf (periodMs : ℤ) : ℤ := cDivTrunc (3 * periodMs) 10

/-- ON/OFF split of lines 200-202 packaged with period and tone. -/
def mkPatternParams (periodMs toneHz : ℤ) : PatternParams :=
  ⟨periodMs, toneHz, (onMsOf periodMs).toNat, (periodMs - onMsOf periodMs).toNat⟩

/-- computePatternFromDistance (variant 1, lines 180-204). -/
def computePatternFromDistance (t : Tunables) (smoothedMm : ℤ)
    (inRange : Bool) : PatternParams :=
  if inRange then mkPatternParams (periodOf t smoothedMm) (toneOf t smoothedMm)
  else mkPatternParams t.MAX_PERIOD_MS t.TONE_MIN_HZ

/-- driveOutputs (variant 1, lines 207-249).  Returns the updated phase
state and actuator state. -/
def driveOutputs (inRange : Bool) (p : PatternParams) (now : ℕ)
    (s : PatternState) (o : Outputs) : PatternState × Outputs :=
  if inRange = false then
    (⟨0, false⟩, ⟨true, false, none⟩)
  else
    let o1 : Outputs := ⟨false, o.red, o.buzzer⟩
    if s.phaseStartMs = 0 then
      (⟨now, true⟩, ⟨false, true, some p.toneHz⟩)
    else if s.phaseOn then
      if p.onMs ≤ elapsedMs now s.phaseStartMs then
        (⟨now, false⟩, ⟨false, false, none⟩)
      else (s, o1)
    else
      if p.offMs ≤ elapsedMs now s.phaseStartMs then
        (⟨now, true⟩, ⟨false, true, some p.toneHz⟩)
      else (s, o1)

/-- Constant FAR_MM of variant 2. -/
def FAR_MM : ℤ := 1500

/-- Constant NEAR_MM of variant 2. -/
def NEAR_MM : ℤ := 150

/-- Constant MAX_PERIOD_MS of variant 2. -/
def MAX_PERIOD_MS : ℤ := 1600

/-- Constant MIN_PERIOD_MS of variant 2. -/
def MIN_PERIOD_MS : ℤ := 110

/-- Constant TONE_MIN_HZ of variant 2. -/
def TONE_MIN_HZ : ℤ := 400

/-- Constant TONE_MAX_HZ of variant 2. -/
def TONE_MAX_HZ : ℤ := 1600

/-- Step 3 of variant 2's loop (lines 326-339): period and tone from
proximity, same float expressions as variant 1 with the concrete
constants. -/
def computePatternV2 (smoothed : ℤ) (inRange : Bool) : ℤ × ℤ :=
  if inRange then
    (let D := FAR_MM - NEAR_MM
     let n0 := FAR_MM - smoothed
     let n := if n0 < 0 then 0 else if D < n0 then D else n0
     cDivTrunc
       (2 * MAX_PERIOD_MS * (D * D * D)
         - 2 * (MAX_PERIOD_MS - MIN_PERIOD_MS) * (n * n * n) + D * D * D)
       (2 * (D * D * D)),
     let D := FAR_MM - NEAR_MM
     let n0 := FAR_MM - smoothed
     let n := if n0 < 0 then 0 else if D < n0 then D else n0
     cDivTrunc
       (2 * TONE_MIN_HZ * (D * D * D)
         + 2 * (TONE_MAX_HZ - TONE_MIN_HZ) * (n * n * n) + D * D * D)
       (2 * (D * D * D)))
  else (MAX_PERIOD_MS, TONE_MIN_HZ)

/-- Step 4 of variant 2's loop (lines 342-380): same driver, but the
"start a new cycle" branch falls through into the phase check instead of
returning (no `else` on line 352's `if`), and `onMs`/`offMs` are computed
here (lines 360-361). -/
def driveOutputsV2 (inRange : Bool) (periodMs toneHz : ℤ) (now : ℕ)
    (s : PatternState) (o : Outputs) : PatternState × Outputs :=
  if inRange = false then
    (⟨0, false⟩, ⟨true, false, none⟩)
  else
    let o1 : Outputs := ⟨false, o.red, o.buzzer⟩
    let started := s.phaseStartMs = 0
    let s1 : PatternState := if started then ⟨now, true⟩ else s
    let o2 : Outputs := if started then ⟨false, true, some toneHz⟩ else o1
    let onMs := (onMsOf periodMs).toNat
    let offMs := (periodMs - onMsOf periodMs).toNat
    if s1.phaseOn then
      if onMs ≤ elapsedMs now s1.phaseStartMs then
        (⟨now, false⟩, ⟨false, false, none⟩)
      else (s1, o2)
    else
      if offMs ≤ elapsedMs now s1.phaseStartMs then
        (⟨now, true⟩, ⟨false, true, some toneHz⟩)
      else (s1, o2)

/-- Rolling 3-sample smoothing buffer plus write index. -/
structure SmoothState where
  b0 : ℤ
  b1 : ℤ
  b2 : ℤ
  idx : ℕ
deriving DecidableEq

/-- Buffer update of `readAndSmoothDistanceMm` lines 155-156 (identical in
variant 2, line 318): overwrite slot `idx`, advance `idx` modulo 3. -/
def pushSample (st : SmoothState) (mm : ℤ) : SmoothState :=
  if st.idx = 0 then ⟨mm, st.b1, st.b2, (st.idx + 1) % 3⟩
  else if st.idx = 1 then ⟨st.b0, mm, st.b2, (st.idx + 1) % 3⟩
  else ⟨st.b0, st.b1, mm, (st.idx + 1) % 3⟩

/-- logStatus (variant 1, lines 252-261). -/
def logStatus (smoothedMm : ℤ) (inRange : Bool) (p : PatternParams) : String :=
  "mm=" ++ toString smoothedMm ++ "  inRange=" ++
    (if inRange then "1" else "0") ++ "  periodMs=" ++ toString p.periodMs ++
    "  toneHz=" ++ toString p.toneHz

/-- Step 5 of variant 2's loop (lines 383-390): same status line. -/
def logStatusV2 (smoothed : ℤ) (inRange : Bool) (periodMs toneHz : ℤ) : String :=
  "mm=" ++ toString smoothed ++ "  inRange=" ++
    (if inRange then "1" else "0") ++ "  periodMs=" ++ toString periodMs ++
    "  toneHz=" ++ toString toneHz

/-- Everything one tick produces or updates: buffer state, smoothed
distance, cadence, phase state, actuator state, status line. -/
structure TickResult where
  smooth : SmoothState
  smoothedMm : ℤ
  inRange : Bool
  periodMs : ℤ
  toneHz : ℤ
  onMs : ℕ
  offMs : ℕ
  pat : PatternState
  out : Outputs
  status : String
deriving DecidableEq

/-- One iteration of variant 1's `loop` (lines 108-127), with the sensor
reading `mm` (result of `readDistanceMmOnce`) and the clock value `now`
(result of `millis`) taken as inputs. -/
def tick1 (t : Tunables) (mm : ℤ) (now : ℕ) (st : SmoothState)
    (s : PatternState) (o : Outputs) : TickResult :=
  let st1 := pushSample st mm
  let smoothedMm := medianOf3_allowInvalid st1.b0 st1.b1 st1.b2
  let inRange := decide (0 ≤ smoothedMm) &&
    decide (smoothedMm ≤ t.FAR_DISTANCE_MM)
  let params := computePatternFromDistance t smoothedMm inRange
  let so := driveOutputs inRange params now s o
  ⟨st1, smoothedMm, inRange, params.periodMs, params.toneHz, params.onMs,
    params.offMs, so.1, so.2, logStatus smoothedMm inRange params⟩

/-- One iteration of variant 2's `loop` (lines 315-393). -/
def tick2 (mm : ℤ) (now : ℕ) (st : SmoothState) (s : PatternState)
    (o : Outputs) : TickResult :=
  let st1 := pushSample st mm
  let smoothed := median3 st1.b0 st1.b1 st1.b2
  let inRange := decide (0 ≤ smoothed) && decide (smoothed ≤ FAR_MM)
  let pt := computePatternV2 smoothed inRange
  let so := driveOutputsV2 inRange pt.1 pt.2 now s o
  ⟨st1, smoothed, inRange, pt.1, pt.2, (onMsOf pt.1).toNat,
    (pt.1 - onMsOf pt.1).toNat, so.1, so.2,
    logStatusV2 smoothed inRange pt.1 pt.2⟩

/-- Iterated variant-1 loop over a list of (sensor reading, clock) pairs,
returning the trace of tick results. -/
def run1 (t : Tunables) : List (ℤ × ℕ) → SmoothState → PatternState →
    Outputs → List TickResult
  | [], _, _, _ => []
  | (mm, now) :: rest, st, s, o =>
    let r := tick1 t mm now st s o
    r :: run1 t rest r.smooth r.pat r.out

/-- Iterated variant-2 loop. -/
def run2 : List (ℤ × ℕ) → SmoothState → PatternState → Outputs →
    List TickResult
  | [], _, _, _ => []
  | (mm, now) :: rest, st, s, o =>
    let r := tick2 mm now st s o
    r :: run2 rest r.smooth r.pat r.out

/-- Round-to-nearest (half away from zero is irrelevant here: applied to
nonnegative values) of the exact rational `a / b`, `b > 0`: the
spec's "rounded to the nearest integer", `⌊a/b + 1/2⌋`. -/
def specRound (a b : ℤ) : ℤ := (2 * a + b) / (2 * b)

/-! ### Arithmetic helpers -/

lemma cDivTrunc_eq_ediv {a b : ℤ} (ha : 0 ≤ a) (hb : 0 ≤ b) :
    cDivTrunc a b = a / b := Int.tdiv_eq_ediv ha hb

lemma half_up_exact {c V : ℤ} (hc : 0 < c) (hV : 0 ≤ V) :
    cDivTrunc (2 * V * c + c) (2 * c) = V := by
  have hnum : (0:ℤ) ≤ 2 * V * c + c := by nlinarith
  rw [cDivTrunc_eq_ediv hnum (by omega)]
  have h1 : 2 * V * c + c = c + V * (2 * c) := by ring
  rw [h1, Int.add_mul_ediv_right _ _ (by omega : (2 * c : ℤ) ≠ 0),
    Int.ediv_eq_zero_of_lt (le_of_lt hc) (by omega), zero_add]

lemma cube_le_cube {a b : ℤ} (ha : 0 ≤ a) (h : a ≤ b) :
    a * a * a ≤ b * b * b := by
  have h1 : a * a ≤ b * b := mul_le_mul h h ha (ha.trans h)
  exact mul_le_mul h1 h ha (mul_nonneg (ha.trans h) (ha.trans h))

/-! ### clampNum facts -/

lemma clampNum_nonneg (t : Tunables) (d : ℤ)
    (hD : t.NEAR_DISTANCE_MM < t.FAR_DISTANCE_MM) : 0 ≤ clampNum t d := by
  simp only [clampNum]
  split_ifs <;> omega

lemma clampNum_le (t : Tunables) (d : ℤ)
    (hD : t.NEAR_DISTANCE_MM < t.FAR_DISTANCE_MM) :
    clampNum t d ≤ t.FAR_DISTANCE_MM - t.NEAR_DISTANCE_MM := by
  simp only [clampNum]
  split_ifs <;> omega

lemma clampNum_antitone (t : Tunables) {d1 d2 : ℤ}
    (hD : t.NEAR_DISTANCE_MM < t.FAR_DISTANCE_MM) (h : d2 ≤ d1) :
    clampNum t d1 ≤ clampNum t d2 := by
  simp only [clampNum]
  split_ifs <;> omega

lemma clampNum_at_far (t : Tunables)
    (hD : t.NEAR_DISTANCE_MM < t.FAR_DISTANCE_MM) :
    clampNum t t.FAR_DISTANCE_MM = 0 := by
  simp only [clampNum]
  split_ifs <;> omega

lemma clampNum_at_near (t : Tunables) {d : ℤ}
    (hD : t.NEAR_DISTANCE_MM < t.FAR_DISTANCE_MM)
    (hd : d ≤ t.NEAR_DISTANCE_MM) :
    clampNum t d = t.FAR_DISTANCE_MM - t.NEAR_DISTANCE_MM := by
  simp only [clampNum]
  split_ifs <;> omega

/-! ### periodOf / toneOf characterization -/

lemma periodOf_at_far (t : Tunables)
    (hD : t.NEAR_DISTANCE_MM < t.FAR_DISTANCE_MM)
    (h0 : 0 ≤ t.MIN_PERIOD_MS) (hm : t.MIN_PERIOD_MS ≤ t.MAX_PERIOD_MS) :
    periodOf t t.FAR_DISTANCE_MM = t.MAX_PERIOD_MS := by
  simp only [periodOf]
  rw [clampNum_at_far t hD]
  generalize hDD : t.FAR_DISTANCE_MM - t.NEAR_DISTANCE_MM = D
  have hDpos : 0 < D := by omega
  have hc : (0:ℤ) < D * D * D := by positivity
  have h2 : 2 * t.MAX_PERIOD_MS * (D * D * D)
      - 2 * (t.MAX_PERIOD_MS - t.MIN_PERIOD_MS) * (0 * 0 * 0) + D * D * D
      = 2 * t.MAX_PERIOD_MS * (D * D * D) + D * D * D := by ring
  rw [h2, half_up_exact hc (h0.trans hm)]

lemma toneOf_at_far (t : Tunables)
    (hD : t.NEAR_DISTANCE_MM < t.FAR_DISTANCE_MM)
    (h0 : 0 ≤ t.TONE_MIN_HZ) :
    toneOf t t.FAR_DISTANCE_MM = t.TONE_MIN_HZ := by
  simp only [toneOf]
  rw [clampNum_at_far t hD]
  generalize hDD : t.FAR_DISTANCE_MM - t.NEAR_DISTANCE_MM = D
  have hDpos : 0 < D := by omega
  have hc : (0:ℤ) < D * D * D := by positivity
  have h2 : 2 * t.TONE_MIN_HZ * (D * D * D)
      + 2 * (t.TONE_MAX_HZ - t.TONE_MIN_HZ) * (0 * 0 * 0) + D * D * D
      = 2 * t.TONE_MIN_HZ * (D * D * D) + D * D * D := by ring
  rw [h2, half_up_exact hc h0]

lemma periodOf_at_near (t : Tunables) {d : ℤ}
    (hD : t.NEAR_DISTANCE_MM < t.FAR_DISTANCE_MM)
    (h0 : 0 ≤ t.MIN_PERIOD_MS) (hd : d ≤ t.NEAR_DISTANCE_MM) :
    periodOf t d = t.MIN_PERIOD_MS := by
  simp only [periodOf]
  rw [clampNum_at_near t hD hd]
  generalize hDD : t.FAR_DISTANCE_MM - t.NEAR_DISTANCE_MM = D
  have hDpos : 0 < D := by omega
  have hc : (0:ℤ) < D * D * D := by positivity
  have h2 : 2 * t.MAX_PERIOD_MS * (D * D * D)
      - 2 * (t.MAX_PERIOD_MS - t.MIN_PERIOD_MS) * (D * D * D) + D * D * D
      = 2 * t.MIN_PERIOD_MS * (D * D * D) + D * D * D := by ring
  rw [h2, half_up_exact hc h0]

lemma toneOf_at_near (t : Tunables) {d : ℤ}
    (hD : t.NEAR_DISTANCE_MM < t.FAR_DISTANCE_MM)
    (h0 : 0 ≤ t.TONE_MIN_HZ) (hmt : t.TONE_MIN_HZ ≤ t.TONE_MAX_HZ)
    (hd : d ≤ t.NEAR_DISTANCE_MM) :
    toneOf t d = t.TONE_MAX_HZ := by
  simp only [toneOf]
  rw [clampNum_at_near t hD hd]
  generalize hDD : t.FAR_DISTANCE_MM - t.NEAR_DISTANCE_MM = D
  have hDpos : 0 < D := by omega
  have hc : (0:ℤ) < D * D * D := by positivity
  have h2 : 2 * t.TONE_MIN_HZ * (D * D * D)
      + 2 * (t.TONE_MAX_HZ - t.TONE_MIN_HZ) * (D * D * D) + D * D * D
      = 2 * t.TONE_MAX_HZ * (D * D * D) + D * D * D := by ring
  rw [h2, half_up_exact hc (h0.trans hmt)]

lemma periodOf_mono (t : Tunables) {d1 d2 : ℤ}
    (hD : t.NEAR_DISTANCE_MM < t.FAR_DISTANCE_MM)
    (h0 : 0 ≤ t.MIN_PERIOD_MS) (hm : t.MIN_PERIOD_MS ≤ t.MAX_PERIOD_MS)
    (h : d2 ≤ d1) : periodOf t d2 ≤ periodOf t d1 := by
  simp only [periodOf]
  set D := t.FAR_DISTANCE_MM - t.NEAR_DISTANCE_MM with hDdef
  have hDpos : 0 < D := by omega
  have hden : (0:ℤ) < 2 * (D * D * D) := by positivity
  have hn1_0 : 0 ≤ clampNum t d1 := clampNum_nonneg t d1 hD
  have hn2_0 : 0 ≤ clampNum t d2 := clampNum_nonneg t d2 hD
  have hn12 : clampNum t d1 ≤ clampNum t d2 := clampNum_antitone t hD h
  have hn2D : clampNum t d2 ≤ D := clampNum_le t d2 hD
  have hc12 : clampNum t d1 * clampNum t d1 * clampNum t d1
      ≤ clampNum t d2 * clampNum t d2 * clampNum t d2 := cube_le_cube hn1_0 hn12
  have hc2D : clampNum t d2 * clampNum t d2 * clampNum t d2 ≤ D * D * D :=
    cube_le_cube hn2_0 hn2D
  have hA2 : (0:ℤ) ≤ 2 * t.MAX_PERIOD_MS * (D * D * D)
      - 2 * (t.MAX_PERIOD_MS - t.MIN_PERIOD_MS) *
        (clampNum t d2 * clampNum t d2 * clampNum t d2) + D * D * D := by
    nlinarith
  have hA1 : (0:ℤ) ≤ 2 * t.MAX_PERIOD_MS * (D * D * D)
      - 2 * (t.MAX_PERIOD_MS - t.MIN_PERIOD_MS) *
        (clampNum t d1 * clampNum t d1 * clampNum t d1) + D * D * D := by
    nlinarith
  rw [cDivTrunc_eq_ediv hA2 (le_of_lt hden), cDivTrunc_eq_ediv hA1 (le_of_lt hden)]
  exact Int.ediv_le_ediv hden (by nlinarith)

lemma toneOf_antitone (t : Tunables) {d1 d2 : ℤ}
    (hD : t.NEAR_DISTANCE_MM < t.FAR_DISTANCE_MM)
    (h0 : 0 ≤ t.TONE_MIN_HZ) (hmt : t.TONE_MIN_HZ ≤ t.TONE_MAX_HZ)
    (h : d2 ≤ d1) : toneOf t d1 ≤ toneOf t d2 := by
  simp only [toneOf]
  set D := t.FAR_DISTANCE_MM - t.NEAR_DISTANCE_MM with hDdef
  have hDpos : 0 < D := by omega
  have hden : (0:ℤ) < 2 * (D * D * D) := by positivity
  have hn1_0 : 0 ≤ clampNum t d1 := clampNum_nonneg t d1 hD
  have hn2_0 : 0 ≤ clampNum t d2 := clampNum_nonneg t d2 hD
  have hn12 : clampNum t d1 ≤ clampNum t d2 := clampNum_antitone t hD h
  have hc12 : clampNum t d1 * clampNum t d1 * clampNum t d1
      ≤ clampNum t d2 * clampNum t d2 * clampNum t d2 := cube_le_cube hn1_0 hn12
  have hcube1 : (0:ℤ) ≤ clampNum t d1 * clampNum t d1 * clampNum t d1 := by
    positivity
  have hB1 : (0:ℤ) ≤ 2 * t.TONE_MIN_HZ * (D * D * D)
      + 2 * (t.TONE_MAX_HZ - t.TONE_MIN_HZ) *
        (clampNum t d1 * clampNum t d1 * clampNum t d1) + D * D * D := by
    nlinarith
  have hB2 : (0:ℤ) ≤ 2 * t.TONE_MIN_HZ * (D * D * D)
      + 2 * (t.TONE_MAX_HZ - t.TONE_MIN_HZ) *
        (clampNum t d2 * clampNum t d2 * clampNum t d2) + D * D * D := by
    nlinarith
  rw [cDivTrunc_eq_ediv hB1 (le_of_lt hden), cDivTrunc_eq_ediv hB2 (le_of_lt hden)]
  exact Int.ediv_le_ediv hden (by nlinarith)

lemma periodOf_lower (t : Tunables) (d : ℤ)
    (hD : t.NEAR_DISTANCE_MM < t.FAR_DISTANCE_MM)
    (h0 : 0 ≤ t.MIN_PERIOD_MS) (hm : t.MIN_PERIOD_MS ≤ t.MAX_PERIOD_MS) :
    t.MIN_PERIOD_MS ≤ periodOf t d := by
  simp only [periodOf]
  set D := t.FAR_DISTANCE_MM - t.NEAR_DISTANCE_MM with hDdef
  have hDpos : 0 < D := by omega
  have hden : (0:ℤ) < 2 * (D * D * D) := by positivity
  have hn0 : 0 ≤ clampNum t d := clampNum_nonneg t d hD
  have hnD : clampNum t d ≤ D := clampNum_le t d hD
  have hcD : clampNum t d * clampNum t d * clampNum t d ≤ D * D * D :=
    cube_le_cube hn0 hnD
  have hA : (0:ℤ) ≤ 2 * t.MAX_PERIOD_MS * (D * D * D)
      - 2 * (t.MAX_PERIOD_MS - t.MIN_PERIOD_MS) *
        (clampNum t d * clampNum t d * clampNum t d) + D * D * D := by
    nlinarith
  rw [cDivTrunc_eq_ediv hA (le_of_lt hden)]
  rw [Int.le_ediv_iff_mul_le hden]
  nlinarith

/-! ### onMs facts and driver equivalence -/

lemma onMsOf_nonneg {p : ℤ} (hp : 0 ≤ p) : 0 ≤ onMsOf p := by
  rw [onMsOf, cDivTrunc_eq_ediv (by omega) (by omega)]
  exact Int.ediv_nonneg (by omega) (by omega)

lemma onMsOf_le {p : ℤ} (hp : 0 ≤ p) : onMsOf p ≤ p := by
  rw [onMsOf, cDivTrunc_eq_ediv (by omega) (by omega)]
  have := (Int.ediv_lt_iff_lt_mul (b := p + 1) (by omega : (0:ℤ) < 10)).mpr
    (by omega : 3 * p < (p + 1) * 10)
  omega

lemma onMsOf_pos {p : ℤ} (hp : 10 ≤ p) : 0 < onMsOf p := by
  rw [onMsOf, cDivTrunc_eq_ediv (by omega) (by omega)]
  have := (Int.le_ediv_iff_mul_le (a := 1) (by omega : (0:ℤ) < 10)).mpr
    (by omega : 1 * 10 ≤ 3 * p)
  omega

lemma elapsedMs_self (now : ℕ) : elapsedMs now now = 0 := by
  simp only [elapsedMs, ULONG_MOD]
  omega

lemma median3_eq (a b c : ℤ) : median3 a b c = medianOf3_allowInvalid a b c := rfl

lemma computePatternV2_fst (sm : ℤ) (r : Bool) :
    (computePatternV2 sm r).1 = (computePatternFromDistance tunables2 sm r).periodMs := by
  cases r <;> rfl

lemma computePatternV2_snd (sm : ℤ) (r : Bool) :
    (computePatternV2 sm r).2 = (computePatternFromDistance tunables2 sm r).toneHz := by
  cases r <;> rfl

lemma mkPatternParams_eta (t : Tunables) (sm : ℤ) (r : Bool) :
    mkPatternParams ((computePatternFromDistance t sm r).periodMs)
      ((computePatternFromDistance t sm r).toneHz)
      = computePatternFromDistance t sm r := by
  cases r <;> rfl

lemma onMs_field (t : Tunables) (sm : ℤ) (r : Bool) :
    (onMsOf ((computePatternFromDistance t sm r).periodMs)).toNat
      = (computePatternFromDistance t sm r).onMs := by
  cases r <;> rfl

lemma offMs_field (t : Tunables) (sm : ℤ) (r : Bool) :
    ((computePatternFromDistance t sm r).periodMs
      - onMsOf ((computePatternFromDistance t sm r).periodMs)).toNat
      = (computePatternFromDistance t sm r).offMs := by
  cases r <;> rfl

lemma logStatusV2_eq (sm : ℤ) (r : Bool) (p : PatternParams) :
    logStatusV2 sm r p.periodMs p.toneHz = logStatus sm r p := rfl

lemma periodMs2_ge_ten (sm : ℤ) (r : Bool) :
    (10:ℤ) ≤ (computePatternFromDistance tunables2 sm r).periodMs := by
  cases r
  · show (10:ℤ) ≤ (1600:ℤ)
    decide
  · show (10:ℤ) ≤ periodOf tunables2 sm
    have h1 := periodOf_lower tunables2 sm (by decide) (by decide) (by decide)
    have h2 : tunables2.MIN_PERIOD_MS = 110 := rfl
    omega

lemma onMs2_pos (sm : ℤ) (r : Bool) :
    0 < (onMsOf ((computePatternFromDistance tunables2 sm r).periodMs)).toNat := by
  have h10 := periodMs2_ge_ten sm r
  have := onMsOf_pos h10
  omega

lemma driveOutputsV2_eq (r : Bool) (pm th : ℤ) (now : ℕ) (s : PatternState)
    (o : Outputs) (hpos : 0 < (onMsOf pm).toNat) :
    driveOutputsV2 r pm th now s o
      = driveOutputs r (mkPatternParams pm th) now s o := by
  cases r
  · rfl
  · simp only [driveOutputsV2, driveOutputs, mkPatternParams]
    by_cases hst : s.phaseStartMs = 0
    · simp only [hst, if_pos rfl, if_true, Bool.true_eq_false, if_neg, reduceIte]
      simp only [elapsedMs_self]
      rw [if_neg (by omega)]
    · simp only [hst, if_neg, reduceIte]

lemma tickParts (st1 : SmoothState) (sm : ℤ) (r : Bool) (now : ℕ)
    (s : PatternState) (o : Outputs) :
    (⟨st1, sm, r, (computePatternFromDistance tunables2 sm r).periodMs,
      (computePatternFromDistance tunables2 sm r).toneHz,
      (computePatternFromDistance tunables2 sm r).onMs,
      (computePatternFromDistance tunables2 sm r).offMs,
      (driveOutputs r (computePatternFromDistance tunables2 sm r) now s o).1,
      (driveOutputs r (computePatternFromDistance tunables2 sm r) now s o).2,
      logStatus sm r (computePatternFromDistance tunables2 sm r)⟩ : TickResult)
    = ⟨st1, sm, r, (computePatternV2 sm r).1, (computePatternV2 sm r).2,
      (onMsOf (computePatternV2 sm r).1).toNat,
      ((computePatternV2 sm r).1 - onMsOf (computePatternV2 sm r).1).toNat,
      (driveOutputsV2 r (computePatternV2 sm r).1 (computePatternV2 sm r).2 now s o).1,
      (driveOutputsV2 r (computePatternV2 sm r).1 (computePatternV2 sm r).2 now s o).2,
      logStatusV2 sm r (computePatternV2 sm r).1 (computePatternV2 sm r).2⟩ := by
  rw [computePatternV2_fst, computePatternV2_snd,
    driveOutputsV2_eq r _ _ now s o (onMs2_pos sm r), mkPatternParams_eta,
    onMs_field, offMs_field, logStatusV2_eq]

lemma tick1_eq_tick2 (mm : ℤ) (now : ℕ) (st : SmoothState) (s : PatternState)
    (o : Outputs) : tick1 tunables2 mm now st s o = tick2 mm now st s o := by
  unfold tick1 tick2
  exact tickParts (pushSample st mm)
    (medianOf3_allowInvalid (pushSample st mm).b0 (pushSample st mm).b1
      (pushSample st mm).b2) _ now s o


/-! ### Median facts -/

lemma insertionSort_middle (x y z : ℤ) :
    ((List.insertionSort (fun a b => a ≤ b) [x, y, z]).drop 1).head?
      = some (sort3Mid x y z) := by
  by_cases c1 : y ≤ z
  · by_cases c2 : x ≤ y
    · simp [List.insertionSort, List.orderedInsert, c1, c2, sort3Mid]
      split_ifs <;> omega
    · by_cases c3 : x ≤ z
      · simp [List.insertionSort, List.orderedInsert, c1, c2, c3, sort3Mid]
        split_ifs <;> omega
      · simp [List.insertionSort, List.orderedInsert, c1, c2, c3, sort3Mid]
        split_ifs <;> omega
  · by_cases c2 : x ≤ z
    · simp [List.insertionSort, List.orderedInsert, c1, c2, sort3Mid]
      split_ifs <;> omega
    · by_cases c3 : x ≤ y
      · simp [List.insertionSort, List.orderedInsert, c1, c2, c3, sort3Mid]
        split_ifs <;> omega
      · simp [List.insertionSort, List.orderedInsert, c1, c2, c3, sort3Mid]
        split_ifs <;> omega

lemma toNat_onMsOf {pm : ℤ} (h : 0 ≤ pm) :
    ((onMsOf pm).toNat : ℤ) = 3 * pm / 10 := by
  rw [onMsOf, cDivTrunc_eq_ediv (by omega) (by omega),
    Int.toNat_of_nonneg (Int.ediv_nonneg (by omega) (by omega))]

/-! ### Claim theorems -/

/-- C1: the 3-slot smoothing function returns `-1` when no entry is valid
(`≥ 0`); the unique valid entry when exactly one is valid; the arithmetic
mean with truncating integer division when exactly two are valid; and the
statistical median — the middle element after sorting, not the mean — when
all three are valid. -/
theorem medianOf3_allowInvalid_correct (a b c : ℤ) :
    ((a < 0 ∧ b < 0 ∧ c < 0) → medianOf3_allowInvalid a b c = -1)
  ∧ ((0 ≤ a ∧ b < 0 ∧ c < 0) → medianOf3_allowInvalid a b c = a)
  ∧ ((a < 0 ∧ 0 ≤ b ∧ c < 0) → medianOf3_allowInvalid a b c = b)
  ∧ ((a < 0 ∧ b < 0 ∧ 0 ≤ c) → medianOf3_allowInvalid a b c = c)
  ∧ ((0 ≤ a ∧ 0 ≤ b ∧ c < 0) →
      medianOf3_allowInvalid a b c = (a + b).tdiv 2)
  ∧ ((0 ≤ a ∧ b < 0 ∧ 0 ≤ c) →
      medianOf3_allowInvalid a b c = (a + c).tdiv 2)
  ∧ ((a < 0 ∧ 0 ≤ b ∧ 0 ≤ c) →
      medianOf3_allowInvalid a b c = (b + c).tdiv 2)
  ∧ ((0 ≤ a ∧ 0 ≤ b ∧ 0 ≤ c) →
      ((List.insertionSort (fun u v => u ≤ v) [a, b, c]).drop 1).head?
        = some (medianOf3_allowInvalid a b c)) := by
  refine ⟨?_, ?_, ?_, ?_, ?_, ?_, ?_, ?_⟩ <;> rintro ⟨h1, h2, h3⟩
  · simp [medianOf3_allowInvalid, validEntries, h1.not_le, h2.not_le, h3.not_le]
  · simp [medianOf3_allowInvalid, validEntries, h1, h2.not_le, h3.not_le]
  · simp [medianOf3_allowInvalid, validEntries, h1.not_le, h2, h3.not_le]
  · simp [medianOf3_allowInvalid, validEntries, h1.not_le, h2.not_le, h3]
  · simp [medianOf3_allowInvalid, validEntries, h1, h2, h3.not_le]
  · simp [medianOf3_allowInvalid, validEntries, h1, h2.not_le, h3]
  · simp [medianOf3_allowInvalid, validEntries, h1.not_le, h2, h3]
  · simp only [medianOf3_allowInvalid, validEntries, if_pos h1, if_pos h2,
      if_pos h3, List.cons_append, List.nil_append]
    exact insertionSort_middle a b c

/-- Witness for C1 at the spec's dropout example `[800, invalid, 820]`:
exactly two valid entries, smoothed result is their mean 810. -/
theorem medianOf3_allowInvalid_correct_witness :
    ((0:ℤ) ≤ 800 ∧ (-1:ℤ) < 0 ∧ (0:ℤ) ≤ 820)
  ∧ medianOf3_allowInvalid 800 (-1) 820 = 810 := by
  refine ⟨by decide, ?_⟩
  have h := (medianOf3_allowInvalid_correct 800 (-1) 820).2.2.2.2.2.1
    ⟨by decide, by decide, by decide⟩
  rw [h]
  decide

/-- C2: an out-of-range tick hard-resets the driver to READY (phase flag
cleared, phase-start back to the sentinel 0, alarm LED and buzzer off, ready
LED on), and the first in-range tick after such a reset always begins a
fresh ON phase (phase-start = now, phase flag set, alarm LED on, tone
started) — it never resumes a stale phase. -/
theorem driveOutputs_reset_and_fresh_start (p pp : PatternParams)
    (now now' : ℕ) (s : PatternState) (o oo : Outputs) :
    driveOutputs false p now s o = (⟨0, false⟩, ⟨true, false, none⟩)
  ∧ (driveOutputs true pp now' (driveOutputs false p now s o).1 oo).1
      = ⟨now', true⟩
  ∧ (driveOutputs true pp now' (driveOutputs false p now s o).1 oo).2
      = ⟨false, true, some pp.toneHz⟩ :=
  ⟨rfl, rfl, rfl⟩

/-- C9: with variant 1 instantiated at variant 2's tunables, the two
variants agree tick for tick on every sequence of sensor readings and clock
values: same smoothing-buffer update, same smoothed distance, same in-range
decision, same period/tone/on/off cadence, same phase-state update, same
actuator state, and same status line. -/
theorem variants_equivalent (inputs : List (ℤ × ℕ)) (st : SmoothState)
    (s : PatternState) (o : Outputs) :
    run1 tunables2 inputs st s o = run2 inputs st s o := by
  induction inputs generalizing st s o with
  | nil => rfl
  | cons p rest ih =>
    cases p with
    | mk mm now =>
      simp only [run1, run2]
      rw [tick1_eq_tick2, ih]

/-- C3 counterexample: a phase that started under the far cadence
(onMs = 480) at t = 1000 is ended at t = 1100 by a tick carrying the near
cadence (onMs = 33), although only 100 ms — far less than the 480 ms in
effect when the phase started — have elapsed.  The cadence change does
retroactively alter the running phase. -/
theorem driveOutputs_stale_threshold_counterexample :
    (driveOutputs true (computePatternFromDistance tunables2 150 true) 1100
      (driveOutputs true (computePatternFromDistance tunables2 1500 true) 1000
        ⟨0, false⟩ ⟨false, false, none⟩).1
      (driveOutputs true (computePatternFromDistance tunables2 1500 true) 1000
        ⟨0, false⟩ ⟨false, false, none⟩).2).1.phaseOn = false
  ∧ elapsedMs 1100
      (driveOutputs true (computePatternFromDistance tunables2 1500 true) 1000
        ⟨0, false⟩ ⟨false, false, none⟩).1.phaseStartMs
      < (computePatternFromDistance tunables2 1500 true).onMs := by
  decide

/-- C3 amended: in both ALARM phases the boundary test always uses the
duration of the cadence passed to the current tick (not the one in effect
when the phase started): while ON, the tick switches to OFF exactly when
the current tick's `onMs` has elapsed since phase-start, and while OFF it
switches back to ON exactly when the current tick's `offMs` has elapsed. -/
theorem driveOutputs_uses_current_thresholds (p : PatternParams) (now : ℕ)
    (s : PatternState) (o : Outputs) (hst : s.phaseStartMs ≠ 0) :
    (s.phaseOn = true →
      ((driveOutputs true p now s o).1.phaseOn = false
        ↔ p.onMs ≤ elapsedMs now s.phaseStartMs))
  ∧ (s.phaseOn = false →
      ((driveOutputs true p now s o).1.phaseOn = true
        ↔ p.offMs ≤ elapsedMs now s.phaseStartMs)) := by
  constructor
  · intro hOn
    simp only [driveOutputs, Bool.true_eq_false, if_neg, reduceIte, hst, hOn]
    by_cases hle : p.onMs ≤ elapsedMs now s.phaseStartMs
    · simp [hle]
    · simp [hle, hOn]
  · intro hOff
    simp only [driveOutputs, Bool.true_eq_false, if_neg, reduceIte, hst, hOff]
    by_cases hle : p.offMs ≤ elapsedMs now s.phaseStartMs
    · simp [hle]
    · simp [hle, hOff]

/-- Witness for the amended C3 with the near cadence (onMs = 33,
offMs = 77) on the current tick and 100 ms elapsed: an ON phase ends now
(33 ≤ 100) and an OFF phase ends now as well (77 ≤ 100). -/
theorem driveOutputs_uses_current_thresholds_witness :
    ((⟨1000, true⟩ : PatternState).phaseStartMs ≠ 0
      ∧ (⟨1000, false⟩ : PatternState).phaseStartMs ≠ 0)
  ∧ ((driveOutputs true (computePatternFromDistance tunables2 150 true) 1100
      ⟨1000, true⟩ ⟨false, true, some 400⟩).1.phaseOn = false
      ↔ (computePatternFromDistance tunables2 150 true).onMs
          ≤ elapsedMs 1100 1000)
  ∧ ((driveOutputs true (computePatternFromDistance tunables2 150 true) 1100
      ⟨1000, false⟩ ⟨false, false, none⟩).1.phaseOn = true
      ↔ (computePatternFromDistance tunables2 150 true).offMs
          ≤ elapsedMs 1100 1000) :=
  ⟨⟨by decide, by decide⟩,
    (driveOutputs_uses_current_thresholds
      (computePatternFromDistance tunables2 150 true) 1100 ⟨1000, true⟩
      ⟨false, true, some 400⟩ (by decide)).1 rfl,
    (driveOutputs_uses_current_thresholds
      (computePatternFromDistance tunables2 150 true) 1100 ⟨1000, false⟩
      ⟨false, false, none⟩ (by decide)).2 rfl⟩

/-- C4: with in-range true, at the FAR boundary the cadence is exactly
(MAX_PERIOD, TONE_MIN), and at or inside the NEAR boundary it is exactly
(MIN_PERIOD, TONE_MAX). -/
theorem computePattern_boundaries (t : Tunables)
    (hD : t.NEAR_DISTANCE_MM < t.FAR_DISTANCE_MM)
    (hp0 : 0 ≤ t.MIN_PERIOD_MS) (hpm : t.MIN_PERIOD_MS ≤ t.MAX_PERIOD_MS)
    (ht0 : 0 ≤ t.TONE_MIN_HZ) (htm : t.TONE_MIN_HZ ≤ t.TONE_MAX_HZ) :
    (computePatternFromDistance t t.FAR_DISTANCE_MM true).periodMs
      = t.MAX_PERIOD_MS
  ∧ (computePatternFromDistance t t.FAR_DISTANCE_MM true).toneHz
      = t.TONE_MIN_HZ
  ∧ ∀ d : ℤ, d ≤ t.NEAR_DISTANCE_MM →
      (computePatternFromDistance t d true).periodMs = t.MIN_PERIOD_MS
    ∧ (computePatternFromDistance t d true).toneHz = t.TONE_MAX_HZ := by
  refine ⟨periodOf_at_far t hD hp0 hpm, toneOf_at_far t hD ht0, ?_⟩
  intro d hd
  exact ⟨periodOf_at_near t hD hp0 hd, toneOf_at_near t hD ht0 htm hd⟩

/-- Witness for C4 at variant 2's tunables: distance 1500 (= FAR) gives
period 1600 and tone 400; distance 150 (= NEAR) gives period 110 and tone
1600. -/
theorem computePattern_boundaries_witness :
    (tunables2.NEAR_DISTANCE_MM < tunables2.FAR_DISTANCE_MM
      ∧ (150:ℤ) ≤ tunables2.NEAR_DISTANCE_MM)
  ∧ (computePatternFromDistance tunables2 tunables2.FAR_DISTANCE_MM true).periodMs
      = tunables2.MAX_PERIOD_MS
  ∧ (computePatternFromDistance tunables2 150 true).periodMs
      = tunables2.MIN_PERIOD_MS
  ∧ (computePatternFromDistance tunables2 150 true).toneHz
      = tunables2.TONE_MAX_HZ := by
  have h := computePattern_boundaries tunables2 (by decide) (by decide)
    (by decide) (by decide) (by decide)
  exact ⟨⟨by decide, by decide⟩, h.1, (h.2.2 150 (by decide)).1,
    (h.2.2 150 (by decide)).2⟩

/-- C5: within the attention zone the cadence is monotonic in distance:
closer distance gives a period that is no larger and a tone that is no
smaller. -/
theorem computePattern_monotone (t : Tunables) (d1 d2 : ℤ)
    (hD : t.NEAR_DISTANCE_MM < t.FAR_DISTANCE_MM)
    (hp0 : 0 ≤ t.MIN_PERIOD_MS) (hpm : t.MIN_PERIOD_MS ≤ t.MAX_PERIOD_MS)
    (ht0 : 0 ≤ t.TONE_MIN_HZ) (htm : t.TONE_MIN_HZ ≤ t.TONE_MAX_HZ)
    (h21 : d2 < d1) (hlow : t.NEAR_DISTANCE_MM ≤ d2)
    (hhigh : d1 ≤ t.FAR_DISTANCE_MM) :
    (computePatternFromDistance t d2 true).periodMs
      ≤ (computePatternFromDistance t d1 true).periodMs
  ∧ (computePatternFromDistance t d1 true).toneHz
      ≤ (computePatternFromDistance t d2 true).toneHz :=
  ⟨periodOf_mono t hD hp0 hpm h21.le, toneOf_antitone t hD ht0 htm h21.le⟩

/-- Witness for C5 at variant 2's tunables with d1 = 1500, d2 = 150. -/
theorem computePattern_monotone_witness :
    (tunables2.NEAR_DISTANCE_MM < tunables2.FAR_DISTANCE_MM ∧ (150:ℤ) < 1500
      ∧ tunables2.NEAR_DISTANCE_MM ≤ (150:ℤ)
      ∧ (1500:ℤ) ≤ tunables2.FAR_DISTANCE_MM)
  ∧ (computePatternFromDistance tunables2 150 true).periodMs
      ≤ (computePatternFromDistance tunables2 1500 true).periodMs
  ∧ (computePatternFromDistance tunables2 1500 true).toneHz
      ≤ (computePatternFromDistance tunables2 150 true).toneHz := by
  have h := computePattern_monotone tunables2 1500 150 (by decide) (by decide)
    (by decide) (by decide) (by decide) (by decide) (by decide) (by decide)
  exact ⟨⟨by decide, by decide, by decide, by decide⟩, h.1, h.2⟩

/-- C6 counterexample: at smoothed distance 151 the computed period is 113,
and `onMs` is 33 = trunc(33.9), not round(33.9) = 34.  The on-duration is
not `round(period * ON_FRACTION)`. -/
theorem onMs_round_counterexample :
    ¬ (((computePatternFromDistance tunables2 151 true).onMs : ℤ)
        = specRound (3 * (computePatternFromDistance tunables2 151 true).periodMs)
            10) := by
  decide

/-- C6 amended: for every computed cadence with a nonnegative period, the
on-duration is the truncation (floor) of `period * ON_FRACTION`, i.e.
`3 * period / 10` with integer division — rounding toward zero, not to
nearest. -/
theorem onMs_is_truncation (t : Tunables) (d : ℤ) (r : Bool)
    (h : 0 ≤ (computePatternFromDistance t d r).periodMs) :
    ((computePatternFromDistance t d r).onMs : ℤ)
      = 3 * (computePatternFromDistance t d r).periodMs / 10 := by
  rw [← onMs_field t d r, toNat_onMsOf h]

/-- Witness for the amended C6 at distance 151: period 113, on-duration
33 = 339 / 10 truncated. -/
theorem onMs_is_truncation_witness :
    (0 ≤ (computePatternFromDistance tunables2 151 true).periodMs)
  ∧ ((computePatternFromDistance tunables2 151 true).onMs : ℤ)
      = 3 * (computePatternFromDistance tunables2 151 true).periodMs / 10 :=
  ⟨by decide, onMs_is_truncation tunables2 151 true (by decide)⟩

/-- C7: for every computed cadence with a nonnegative period,
on-duration + off-duration = period. -/
theorem on_off_sum_eq_period (t : Tunables) (d : ℤ) (r : Bool)
    (h : 0 ≤ (computePatternFromDistance t d r).periodMs) :
    ((computePatternFromDistance t d r).onMs : ℤ)
      + ((computePatternFromDistance t d r).offMs : ℤ)
      = (computePatternFromDistance t d r).periodMs := by
  rw [← onMs_field t d r, ← offMs_field t d r]
  have h1 : 0 ≤ onMsOf (computePatternFromDistance t d r).periodMs :=
    onMsOf_nonneg h
  have h2 : onMsOf (computePatternFromDistance t d r).periodMs
      ≤ (computePatternFromDistance t d r).periodMs := onMsOf_le h
  rw [Int.toNat_of_nonneg h1, Int.toNat_of_nonneg (by omega)]
  ring

/-- Witness for C7 at the spec's rounding edge case: MAX_PERIOD = 111 (so
the out-of-near cadence has period 111), on = 33, off = 78, 33 + 78 = 111. -/
theorem on_off_sum_eq_period_witness :
    (0 ≤ (computePatternFromDistance ⟨1500, 150, 111, 111, 400, 1600⟩ 1500 true).periodMs)
  ∧ ((computePatternFromDistance ⟨1500, 150, 111, 111, 400, 1600⟩ 1500 true).onMs : ℤ)
      + ((computePatternFromDistance ⟨1500, 150, 111, 111, 400, 1600⟩ 1500 true).offMs : ℤ)
      = (computePatternFromDistance ⟨1500, 150, 111, 111, 400, 1600⟩ 1500 true).periodMs
  ∧ (computePatternFromDistance ⟨1500, 150, 111, 111, 400, 1600⟩ 1500 true).periodMs = 111
  ∧ (computePatternFromDistance ⟨1500, 150, 111, 111, 400, 1600⟩ 1500 true).onMs = 33
  ∧ (computePatternFromDistance ⟨1500, 150, 111, 111, 400, 1600⟩ 1500 true).offMs = 78 :=
  ⟨by decide, on_off_sum_eq_period ⟨1500, 150, 111, 111, 400, 1600⟩ 1500 true (by decide),
    by decide, by decide, by decide⟩

/-- C8: while in an ON phase (phase flag set, phase-start not the
sentinel), a tick whose elapsed time since phase-start is exactly the
on-duration transitions to OFF: the `>=` comparison is inclusive, so the
phase flag is cleared, phase-start becomes now, the alarm LED is
extinguished and the tone stopped. -/
theorem driveOutputs_on_boundary_inclusive (p : PatternParams) (now : ℕ)
    (s : PatternState) (o : Outputs) (hOn : s.phaseOn = true)
    (hst : s.phaseStartMs ≠ 0)
    (helapsed : elapsedMs now s.phaseStartMs = p.onMs) :
    driveOutputs true p now s o = (⟨now, false⟩, ⟨false, false, none⟩) := by
  simp only [driveOutputs, Bool.true_eq_false, if_neg, reduceIte, hst, hOn]
  rw [helapsed, if_pos (le_refl _)]

/-- Witness for C8: phase started at 100, now = 133, on-duration 33 of the
near cadence; elapsed is exactly 33 and the tick switches to OFF. -/
theorem driveOutputs_on_boundary_inclusive_witness :
    ((⟨100, true⟩ : PatternState).phaseOn = true
      ∧ (⟨100, true⟩ : PatternState).phaseStartMs ≠ 0
      ∧ elapsedMs 133 100 = (computePatternFromDistance tunables2 150 true).onMs)
  ∧ driveOutputs true (computePatternFromDistance tunables2 150 true) 133
      ⟨100, true⟩ ⟨false, true, some 1600⟩ = (⟨133, false⟩, ⟨false, false, none⟩) :=
  ⟨⟨rfl, by decide, by decide⟩,
    driveOutputs_on_boundary_inclusive (computePatternFromDistance tunables2 150 true)
      133 ⟨100, true⟩ ⟨false, true, some 1600⟩ rfl (by decide) (by decide)⟩

/-- C10: the driver's "no cycle started" sentinel is the timestamp 0, which
collides with a real clock reading of 0: every in-range tick that sees a
stored phase-start of 0 starts a fresh ON phase, whatever the phase flag
says — so a phase that legitimately began when the clock read 0 is
restarted instead of being timed against its duration. -/
theorem driveOutputs_zero_sentinel_restart (p : PatternParams) (now : ℕ)
    (s : PatternState) (o : Outputs) (h : s.phaseStartMs = 0) :
    driveOutputs true p now s o = (⟨now, true⟩, ⟨false, true, some p.toneHz⟩) := by
  simp [driveOutputs, h]

/-- Witness for C10: a phase that began mid-ON with the clock at 0 (state
⟨0, true⟩) is restarted at now = 5 — phase-start jumps to 5 and the ON
outputs are re-issued, instead of the phase being timed from 0. -/
theorem driveOutputs_zero_sentinel_restart_witness :
    ((⟨0, true⟩ : PatternState).phaseStartMs = 0)
  ∧ driveOutputs true (computePatternFromDistance tunables2 150 true) 5
      ⟨0, true⟩ ⟨false, true, some 1600⟩
      = (⟨5, true⟩, ⟨false, true,
          some (computePatternFromDistance tunables2 150 true).toneHz⟩) :=
  ⟨rfl, driveOutputs_zero_sentinel_restart
    (computePatternFromDistance tunables2 150 true) 5 ⟨0, true⟩
    ⟨false, true, some 1600⟩ rfl⟩
